import Mathlib

/-!
Verification of the HTTP proxy server in `app.py` (repository `en_toolbox`).

The program is a single-file Python HTTP server built on
`http.server.SimpleHTTPRequestHandler`.  We embed the request handler and
startup logic as pure Lean functions:

* the upstream HTTP call (`urllib.request.urlopen`) is abstracted as an
  explicit `Upstream` outcome - the call either returns a response object
  (only ever for a successful status), raises `urllib.error.HTTPError`
  carrying a code and a reason, or raises some other exception;
* a handler run produces a `Response` (status, headers set by the handler
  via `send_header` or `send_error`, and a body) together with a flag
  recording whether the upstream was contacted;
* `send_error` is modelled as producing its status code, its fixed
  headers, and an error-page body carrying the code and the message that
  the library renders into HTML;
* `main`'s startup sequence is modelled as a function from the two
  startup-relevant facts (does the HTML file exist, what is the token
  environment variable) to a startup outcome.
-/

namespace EnToolbox

/-- Python truthiness of `os.environ.get(...)`: `None` and the empty
string are falsy, every other string is truthy. -/
def pythonTruthy : Option String → Bool
  | none => false
  | some s => !(s == "")

/-- Body of an HTTP response as produced by the handler: nothing written,
raw bytes written with `wfile.write`, or the HTML error page generated by
`send_error` from a status code and a message. -/
inductive Body where
  | empty : Body
  | raw (data : List Nat) : Body
  | errorPage (code : Nat) (message : String) : Body
deriving DecidableEq

/-- An HTTP response sent to the caller: status code, the headers set by
the handler, and the body. -/
structure Response where
  status : Nat
  headers : List (String × String)
  body : Body
deriving DecidableEq

/-- Outcome of the abstracted `urllib.request.urlopen` call: a returned
response object (status, body bytes, content type of the upstream), an
`urllib.error.HTTPError` with code and reason, or any other exception with
its string rendering. -/
inductive Upstream where
  | success (status : Nat) (data : List Nat) (contentType : String)
  | httpError (code : Nat) (reason : String)
  | transportError (message : String)
deriving DecidableEq

/-- The request the proxy sends to the upstream service
(`urllib.request.Request(...)` in `handle_api_request`). -/
structure UpstreamRequest where
  url : String
  headers : List (String × String)
deriving DecidableEq

/-- `HTML_FILE = "emergency-signin.html"` from the configuration block. -/
def HTML_FILE : String := "emergency-signin.html"

/-- `send_error(code, message)` from the standard library handler: sets
the given status, a `text/html` content type and `Connection: close`, and
writes an error page built from the code and the message. -/
def send_error (code : Nat) (message : String) : Response :=
  { status := code
  , headers := [("Content-Type", "text/html;charset=utf-8"), ("Connection", "close")]
  , body := Body.errorPage code message }

/-- The `urllib.request.Request` built in `handle_api_request`: fixed URL
and the three fixed headers, with the bearer token injected into
`Authorization`. -/
def upstreamRequest (token : String) : UpstreamRequest :=
  { url := "https://app.emergencynetworking.com/department-api/users"
  , headers :=
      [ ("Authorization", "Bearer " ++ token)
      , ("Content-Type", "application/json")
      , ("User-Agent", "Emergency-SignIn-Generator-Render/1.0") ] }

/-- The three CORS headers the handler sets on the proxy success path and
in `do_OPTIONS`. -/
def corsHeaders : List (String × String) :=
  [ ("Access-Control-Allow-Origin", "*")
  , ("Access-Control-Allow-Methods", "GET, POST, OPTIONS")
  , ("Access-Control-Allow-Headers", "Content-Type, Authorization") ]

/-- `APIProxyHandler.handle_api_request`.  Returns the response sent to
the caller and whether the upstream was contacted.  The token check comes
first (`if not token:` - Python truthiness); only then is the upstream
request issued, and the three exceptional paths mirror the
`try`/`except` structure of the source. -/
def handle_api_request (token : Option String) (up : Upstream) : Response × Bool :=
  if pythonTruthy token then
    match up with
    | Upstream.success _status data _contentType =>
        ({ status := 200
         , headers := ("Content-Type", "application/json") :: corsHeaders
         , body := Body.raw data }, true)
    | Upstream.httpError code reason =>
        (send_error code ("API Error: " ++ toString code ++ " - " ++ reason), true)
    | Upstream.transportError msg =>
        (send_error 500 ("Proxy Error: " ++ msg), true)
  else
    (send_error 500 "API token not configured", false)

/-- Result of a GET request: either a response produced by the handler
itself (with the upstream-contacted flag), or delegation to the standard
static-file machinery (`super().do_GET()`). -/
inductive Outcome where
  | response (r : Response) (upstreamContacted : Bool)
  | staticFile
deriving DecidableEq

/-- `APIProxyHandler.do_GET`: exact string match on `self.path` against
`"/api/users"`, then against `"/"` or `""` for the redirect, else static
file serving. -/
def do_GET (token : Option String) (up : Upstream) (path : String) : Outcome :=
  if path = "/api/users" then
    let res := handle_api_request token up
    Outcome.response res.1 res.2
  else if path = "/" ∨ path = "" then
    Outcome.response
      { status := 302
      , headers := [("Location", "/" ++ HTML_FILE)]
      , body := Body.empty } false
  else
    Outcome.staticFile

/-- `APIProxyHandler.do_OPTIONS`: status 200, the three CORS headers, no
body.  The request path is available to the handler but unused. -/
def do_OPTIONS (_path : String) : Response :=
  { status := 200, headers := corsHeaders, body := Body.empty }

/-- How `do_GET` dispatches a raw request path. -/
inductive Dispatch where
  | proxy : Dispatch
  | redirect : Dispatch
  | staticFile : Dispatch
deriving DecidableEq

/-- The dispatch decision of `APIProxyHandler.do_GET`, read off the same
`if`/`elif`/`else` chain as `do_GET`. -/
def getDispatch (path : String) : Dispatch :=
  if path = "/api/users" then Dispatch.proxy
  else if path = "/" ∨ path = "" then Dispatch.redirect
  else Dispatch.staticFile

/-- Outcome of the startup sequence in `main`: `exitCode = some c` means
the process exited with status `c` before serving; `boundSocket` records
whether execution reached the `TCPServer` bind; `warnedMissingToken`
records whether the token warning was printed. -/
structure StartupOutcome where
  exitCode : Option Nat
  boundSocket : Bool
  warnedMissingToken : Bool
deriving DecidableEq

/-- The startup sequence of `main`: after changing into the script
directory, a missing `HTML_FILE` causes `sys.exit(1)` before anything
else; otherwise a falsy token only prints a warning and the server is
started. -/
def mainStartup (htmlFileExists : Bool) (token : Option String) : StartupOutcome :=
  if htmlFileExists then
    { exitCode := none
    , boundSocket := true
    , warnedMissingToken := !(pythonTruthy token) }
  else
    { exitCode := some 1, boundSocket := false, warnedMissingToken := false }

/-- A truthy `some t` is exactly a nonempty `t`. -/
theorem pythonTruthy_some (t : String) (ht : t ≠ "") : pythonTruthy (some t) = true := by
  simp [pythonTruthy, ht]

/-- C1: for a GET to `/api/users` with a nonempty token, when the
upstream returns status 200 with body bytes `B`, the caller gets status
200, body exactly `B`, and the header `Access-Control-Allow-Origin: *`. -/
theorem c1_success_relay (t : String) (ht : t ≠ "") (B : List Nat) (ct : String) :
    ∃ r : Response,
      do_GET (some t) (Upstream.success 200 B ct) "/api/users" = Outcome.response r true ∧
      r.status = 200 ∧ r.body = Body.raw B ∧
      ("Access-Control-Allow-Origin", "*") ∈ r.headers := by
  refine ⟨{ status := 200
          , headers := ("Content-Type", "application/json") :: corsHeaders
          , body := Body.raw B }, ?_, rfl, rfl, ?_⟩
  · simp [do_GET, handle_api_request, pythonTruthy_some t ht]
  · simp [corsHeaders]

/-- Witness for C1 at token `"tok"`, body `[104, 105]`. -/
theorem c1_success_relay_witness :
    ∃ r : Response,
      do_GET (some "tok") (Upstream.success 200 [104, 105] "application/json") "/api/users" =
        Outcome.response r true ∧
      r.status = 200 ∧ r.body = Body.raw [104, 105] ∧
      ("Access-Control-Allow-Origin", "*") ∈ r.headers :=
  c1_success_relay "tok" (by decide) [104, 105] "application/json"

/-- C2: for a GET to `/api/users` with the token absent or empty, the
response status is 500 and the upstream is never contacted (the returned
flag is `false`), and a response is always produced (no crash). -/
theorem c2_missing_token (token : Option String)
    (h : token = none ∨ token = some "") (up : Upstream) :
    ∃ r : Response,
      do_GET token up "/api/users" = Outcome.response r false ∧ r.status = 500 := by
  rcases h with h | h <;> subst h <;>
    exact ⟨send_error 500 "API token not configured",
      by simp [do_GET, handle_api_request, pythonTruthy], rfl⟩

/-- Witness for C2 at token `none`. -/
theorem c2_missing_token_witness :
    ∃ r : Response,
      do_GET none (Upstream.transportError "boom") "/api/users" =
        Outcome.response r false ∧ r.status = 500 :=
  c2_missing_token none (Or.inl rfl) (Upstream.transportError "boom")

/-- C3: for a GET to `/api/users` with a nonempty token, when the
upstream raises an HTTP error with a non-2xx code `S` and reason text,
the caller gets status exactly `S` and a message built from the upstream
code and reason. -/
theorem c3_upstream_error_relay (t : String) (ht : t ≠ "") (S : Nat) (reason : String)
    (hS : ¬ (200 ≤ S ∧ S < 300)) :
    ∃ r : Response,
      do_GET (some t) (Upstream.httpError S reason) "/api/users" = Outcome.response r true ∧
      r.status = S ∧
      r.body = Body.errorPage S ("API Error: " ++ toString S ++ " - " ++ reason) := by
  exact ⟨send_error S ("API Error: " ++ toString S ++ " - " ++ reason),
    by simp [do_GET, handle_api_request, pythonTruthy_some t ht], rfl, rfl⟩

/-- Witness for C3 at token `"tok"`, upstream 404 Not Found. -/
theorem c3_upstream_error_relay_witness :
    ∃ r : Response,
      do_GET (some "tok") (Upstream.httpError 404 "Not Found") "/api/users" =
        Outcome.response r true ∧
      r.status = 404 ∧
      r.body = Body.errorPage 404 ("API Error: " ++ toString 404 ++ " - " ++ "Not Found") :=
  c3_upstream_error_relay "tok" (by decide) 404 "Not Found" (by decide)

/-- C4: the token never reaches the caller: for any two nonempty token
values the response to every request is identical (so no part of any
response depends on the token value), and the token is sent to the
upstream only as the `Authorization: Bearer` header value of the fixed
upstream request. -/
theorem c4_token_confidentiality (t₁ t₂ : String) (h₁ : t₁ ≠ "") (h₂ : t₂ ≠ "") :
    (∀ (up : Upstream) (path : String),
        do_GET (some t₁) up path = do_GET (some t₂) up path) ∧
    (∀ t : String,
        (upstreamRequest t).url = "https://app.emergencynetworking.com/department-api/users" ∧
        (upstreamRequest t).headers =
          [ ("Authorization", "Bearer " ++ t)
          , ("Content-Type", "application/json")
          , ("User-Agent", "Emergency-SignIn-Generator-Render/1.0") ]) := by
  constructor
  · intro up path
    simp only [do_GET, handle_api_request, pythonTruthy_some t₁ h₁, pythonTruthy_some t₂ h₂]
  · intro t
    exact ⟨rfl, rfl⟩

/-- Witness for C4 at tokens `"a"` and `"b"`. -/
theorem c4_token_confidentiality_witness :
    (∀ (up : Upstream) (path : String),
        do_GET (some "a") up path = do_GET (some "b") up path) ∧
    (∀ t : String,
        (upstreamRequest t).url = "https://app.emergencynetworking.com/department-api/users" ∧
        (upstreamRequest t).headers =
          [ ("Authorization", "Bearer " ++ t)
          , ("Content-Type", "application/json")
          , ("User-Agent", "Emergency-SignIn-Generator-Render/1.0") ]) :=
  c4_token_confidentiality "a" "b" (by decide) (by decide)

/-- C5 counterexample: with token `"tok"` and the upstream returning
status 201 with content type `text/plain` and body `[104]`, the caller
gets status 200 (not the upstream's 201) and content type
`application/json` (not the upstream's `text/plain`): the upstream status
and content type are NOT relayed verbatim. -/
theorem c5_counterexample :
    ∃ r : Response,
      do_GET (some "tok") (Upstream.success 201 [104] "text/plain") "/api/users" =
        Outcome.response r true ∧
      r.status = 200 ∧ ¬ r.status = 201 ∧
      ("Content-Type", "application/json") ∈ r.headers ∧
      ¬ ("Content-Type", "text/plain") ∈ r.headers := by
  refine ⟨{ status := 200
          , headers := ("Content-Type", "application/json") :: corsHeaders
          , body := Body.raw [104] }, ?_, rfl, by decide, ?_, ?_⟩
  · simp [do_GET, handle_api_request, pythonTruthy]
  · simp
  · simp [corsHeaders]

/-- C5 amended: on upstream success the body bytes are relayed verbatim
with CORS headers added, but the response status is always 200 and the
content type always `application/json`, whatever the upstream's status
and content type were; on an upstream HTTP error the status code is
relayed but the body is a generated error page, not the upstream body. -/
theorem c5_amended_relay (t : String) (ht : t ≠ "") :
    (∀ (s : Nat) (B : List Nat) (ct : String),
        ∃ r : Response,
          do_GET (some t) (Upstream.success s B ct) "/api/users" = Outcome.response r true ∧
          r.body = Body.raw B ∧ r.status = 200 ∧
          ("Content-Type", "application/json") ∈ r.headers ∧
          ("Access-Control-Allow-Origin", "*") ∈ r.headers) ∧
    (∀ (S : Nat) (reason : String),
        ∃ r : Response,
          do_GET (some t) (Upstream.httpError S reason) "/api/users" = Outcome.response r true ∧
          r.status = S ∧
          r.body = Body.errorPage S ("API Error: " ++ toString S ++ " - " ++ reason)) := by
  constructor
  · intro s B ct
    refine ⟨{ status := 200
            , headers := ("Content-Type", "application/json") :: corsHeaders
            , body := Body.raw B }, ?_, rfl, rfl, ?_, ?_⟩
    · simp [do_GET, handle_api_request, pythonTruthy_some t ht]
    · simp
    · simp [corsHeaders]
  · intro S reason
    exact ⟨send_error S ("API Error: " ++ toString S ++ " - " ++ reason),
      by simp [do_GET, handle_api_request, pythonTruthy_some t ht], rfl, rfl⟩

/-- Witness for the amended C5 at token `"tok"`. -/
theorem c5_amended_relay_witness :
    (∀ (s : Nat) (B : List Nat) (ct : String),
        ∃ r : Response,
          do_GET (some "tok") (Upstream.success s B ct) "/api/users" =
            Outcome.response r true ∧
          r.body = Body.raw B ∧ r.status = 200 ∧
          ("Content-Type", "application/json") ∈ r.headers ∧
          ("Access-Control-Allow-Origin", "*") ∈ r.headers) ∧
    (∀ (S : Nat) (reason : String),
        ∃ r : Response,
          do_GET (some "tok") (Upstream.httpError S reason) "/api/users" =
            Outcome.response r true ∧
          r.status = S ∧
          r.body = Body.errorPage S ("API Error: " ++ toString S ++ " - " ++ reason)) :=
  c5_amended_relay "tok" (by decide)

/-- C6: an OPTIONS request, whatever its path, gets status 200, an empty
body, and exactly the three CORS headers. -/
theorem c6_options_preflight (path : String) :
    do_OPTIONS path =
      { status := 200
      , headers :=
          [ ("Access-Control-Allow-Origin", "*")
          , ("Access-Control-Allow-Methods", "GET, POST, OPTIONS")
          , ("Access-Control-Allow-Headers", "Content-Type, Authorization") ]
      , body := Body.empty } := rfl

/-- C7: a GET to `/` or to the empty path is answered, without contacting
the upstream, by a 302 whose only header is
`Location: /emergency-signin.html`. -/
theorem c7_root_redirect (token : Option String) (up : Upstream) :
    do_GET token up "/" =
      Outcome.response
        { status := 302
        , headers := [("Location", "/emergency-signin.html")]
        , body := Body.empty } false ∧
    do_GET token up "" =
      Outcome.response
        { status := 302
        , headers := [("Location", "/emergency-signin.html")]
        , body := Body.empty } false := by
  constructor <;> simp [do_GET, HTML_FILE]

/-- C8: if the HTML file is missing at startup the process exits with a
nonzero status before binding a socket, for any token value; if the file
exists but the token is absent, the warning is printed and startup
proceeds to bind the socket without exiting. -/
theorem c8_startup_checks (token : Option String) :
    ((∃ c : Nat, (mainStartup false token).exitCode = some c ∧ c ≠ 0) ∧
      (mainStartup false token).boundSocket = false) ∧
    mainStartup true none =
      { exitCode := none, boundSocket := true, warnedMissingToken := true } := by
  refine ⟨⟨⟨1, ?_, ?_⟩, ?_⟩, ?_⟩ <;> simp [mainStartup, pythonTruthy]

/-- C9: every error response on the `/api/users` path - missing token,
upstream HTTP error, or transport error - carries none of the three CORS
headers. -/
theorem c9_error_paths_no_cors (token : Option String) (up : Upstream)
    (herr : pythonTruthy token = false ∨
            (∃ S reason, up = Upstream.httpError S reason) ∨
            (∃ m, up = Upstream.transportError m)) :
    ∃ (r : Response) (c : Bool),
      do_GET token up "/api/users" = Outcome.response r c ∧
      (∀ v : String,
        ("Access-Control-Allow-Origin", v) ∉ r.headers ∧
        ("Access-Control-Allow-Methods", v) ∉ r.headers ∧
        ("Access-Control-Allow-Headers", v) ∉ r.headers) := by
  by_cases htok : pythonTruthy token = true
  · rcases herr with herr | ⟨S, reason, hup⟩ | ⟨m, hup⟩
    · rw [htok] at herr
      exact absurd herr (by decide)
    · subst hup
      refine ⟨send_error S ("API Error: " ++ toString S ++ " - " ++ reason), true,
        by simp [do_GET, handle_api_request, htok], ?_⟩
      intro v
      refine ⟨?_, ?_, ?_⟩ <;> simp [send_error]
    · subst hup
      refine ⟨send_error 500 ("Proxy Error: " ++ m), true,
        by simp [do_GET, handle_api_request, htok], ?_⟩
      intro v
      refine ⟨?_, ?_, ?_⟩ <;> simp [send_error]
  · refine ⟨send_error 500 "API token not configured", false,
      by simp [do_GET, handle_api_request, htok], ?_⟩
    intro v
    refine ⟨?_, ?_, ?_⟩ <;> simp [send_error]

/-- Witness for C9 at token `none` and a transport error. -/
theorem c9_error_paths_no_cors_witness :
    ∃ (r : Response) (c : Bool),
      do_GET none (Upstream.transportError "boom") "/api/users" = Outcome.response r c ∧
      (∀ v : String,
        ("Access-Control-Allow-Origin", v) ∉ r.headers ∧
        ("Access-Control-Allow-Methods", v) ∉ r.headers ∧
        ("Access-Control-Allow-Headers", v) ∉ r.headers) :=
  c9_error_paths_no_cors none (Upstream.transportError "boom") (Or.inl rfl)

/-- C10: a GET is dispatched to the proxy exactly when the raw path is
the string `/api/users`; query or trailing-slash variants fall through to
static-file serving, `/` and the empty path go to the redirect and are
never served statically, and the dispatch decision agrees with
`do_GET`'s result shape for static files. -/
theorem c10_dispatch_exact (p : String) :
    (getDispatch p = Dispatch.proxy ↔ p = "/api/users") ∧
    getDispatch "/api/users?x=1" = Dispatch.staticFile ∧
    getDispatch "/api/users/" = Dispatch.staticFile ∧
    getDispatch "/" = Dispatch.redirect ∧
    getDispatch "" = Dispatch.redirect ∧
    (∀ (token : Option String) (up : Upstream),
        getDispatch p = Dispatch.staticFile ↔ do_GET token up p = Outcome.staticFile) := by
  refine ⟨?_, by decide, by decide, by decide, by decide, ?_⟩
  · constructor
    · intro h
      by_cases h1 : p = "/api/users"
      · exact h1
      · by_cases h2 : p = "/" ∨ p = "" <;> simp [getDispatch, h1, h2] at h
    · intro h
      subst h
      rfl
  · intro token up
    by_cases h1 : p = "/api/users"
    · subst h1
      constructor
      · intro h
        simp [getDispatch] at h
      · intro h
        simp [do_GET] at h
    · by_cases h2 : p = "/" ∨ p = ""
      · constructor
        · intro h
          simp [getDispatch, h1, h2] at h
        · intro h
          simp [do_GET, h1, h2] at h
      · simp [getDispatch, do_GET, h1, h2]

end EnToolbox
